import Mathlib

/-!
Shallow embedding of the Translation Dispatch & Background Job Pipeline of the
video-subtitle translation app: the client's polling hook (`useJobPolling.ts`),
the job-status data model (`api.ts`), the submit path (`handleUrlSubmit` in the
main component), the subtitle overlay (`SubtitleOverlay.tsx`), the usage-stats
client (`usageApi.getStats`), together with the backend Job Manager, Provider
Router and submit endpoint modelled from the spec (their code is not part of
the frontend sources).
-/

namespace VideoTrans

/-- The job status union type of `JobStatusResponse` in
`src/frontend/src/services/api.ts`: `'queued' | 'processing' | 'completed' | 'error'`. -/
inductive JobStatus where
  | queued
  | processing
  | completed
  | error
deriving DecidableEq, Repr

/-- `JobStatusResponse` from `src/frontend/src/services/api.ts`. `progress` is a
number produced by the backend as an integer percentage. -/
structure JobStatusResponse where
  job_id : String
  status : JobStatus
  progress : Nat
  message : Option String
  video_id : Option String
  error : Option String
  translation_service : Option String
deriving DecidableEq, Repr

/-! ## The polling hook `useJobPolling`
`src/frontend/src/hooks/useJobPolling.ts`. One effect run is modelled as a
state machine: `jobStatus` and `isPolling` are the React state cells,
`intervalActive` records whether the `setInterval` handle is still live
(cleared by `clearInterval`). Each firing of `poll` receives the result of
`videoApi.getJobStatus` as an `Except`: `Except.ok` a parsed response,
`Except.error` a rejected promise (network failure), which the source catches. -/

structure PollState where
  jobStatus : Option JobStatusResponse
  isPolling : Bool
  intervalActive : Bool
deriving DecidableEq, Repr

/-- The body of `poll` in `useJobPolling.ts`: on success store the status and,
when it is `completed` or `error`, stop polling and clear the interval; on a
caught fetch failure stop polling and clear the interval. -/
def pollStep (s : PollState) (r : Except Unit JobStatusResponse) : PollState :=
  match r with
  | Except.ok st =>
      let s1 : PollState := { s with jobStatus := some st }
      if st.status = JobStatus.completed ∨ st.status = JobStatus.error then
        { s1 with isPolling := false, intervalActive := false }
      else s1
  | Except.error _ => { s with isPolling := false, intervalActive := false }

/-- One interval tick: `poll` runs only while the interval is live. -/
def pollTick (s : PollState) (r : Except Unit JobStatusResponse) : PollState :=
  if s.intervalActive then pollStep s r else s

/-- Run the hook over a sequence of tick results. -/
def pollRun (s : PollState) : List (Except Unit JobStatusResponse) → PollState
  | [] => s
  | r :: rs => pollRun (pollTick s r) rs

/-- How many `getJobStatus` calls the hook issues over a sequence of ticks:
one per tick while the interval is live, none after it is cleared. -/
def pollCalls (s : PollState) : List (Except Unit JobStatusResponse) → Nat
  | [] => 0
  | r :: rs => (if s.intervalActive then 1 else 0) + pollCalls (pollTick s r) rs

lemma pollTick_inactive (s : PollState) (r : Except Unit JobStatusResponse)
    (h : s.intervalActive = false) : pollTick s r = s := by
  simp [pollTick, h]

lemma pollRun_inactive (s : PollState) (h : s.intervalActive = false) :
    ∀ rs : List (Except Unit JobStatusResponse), pollRun s rs = s := by
  intro rs
  induction rs with
  | nil => rfl
  | cons r rs ih => simp [pollRun, pollTick_inactive s r h, ih]

lemma pollCalls_inactive (s : PollState) (h : s.intervalActive = false) :
    ∀ rs : List (Except Unit JobStatusResponse), pollCalls s rs = 0 := by
  intro rs
  induction rs with
  | nil => rfl
  | cons r rs ih => simp [pollCalls, h, pollTick_inactive s r h, ih]

/-! ## Job Manager (modelled from the spec)
The Job Manager, its `advance` operation and the progress formula live in the
backend, which is not among the frontend sources; they are modelled from the
spec (section 4.1). -/

/-- Modelled from the spec: the Job Manager's progress formula,
`progress = floor(100 * completedSegments / totalSegments)` (the backend code
is not in the repository's files). In natural-number division `100 * c / t`
is exactly that floor. -/
def progressOf (completed total : Nat) : Nat := 100 * completed / total

/-- Modelled from the spec: the Job Manager's view of one Job — how many
segments are done, how many there are, and the state-machine status. -/
structure JobState where
  completed : Nat
  total : Nat
  status : JobStatus
deriving DecidableEq, Repr

/-- One event processed by the Job Manager's internal `advance`. -/
inductive JobEvent where
  | segmentDone
  | segmentFailed
deriving DecidableEq, Repr

/-- Modelled from the spec: `advance` — a completed segment raises the
completed count (capped at the total) and moves the Job to `completed` when
all segments are done; total failure of a segment sets `status = error`;
`completed`/`error` are terminal, so events arriving there mutate nothing. -/
def jobAdvance (s : JobState) (e : JobEvent) : JobState :=
  if s.status = JobStatus.completed ∨ s.status = JobStatus.error then s
  else
    match e with
    | JobEvent.segmentDone =>
        let c := min (s.completed + 1) s.total
        { s with
          completed := c
          status := if c = s.total then JobStatus.completed else JobStatus.processing }
    | JobEvent.segmentFailed => { s with status := JobStatus.error }

/-- The Job Manager processing a sequence of events. -/
def jobRun (s : JobState) : List JobEvent → JobState
  | [] => s
  | e :: es => jobRun (jobAdvance s e) es

/-- The progress a `getStatus` poll reads off a job state. -/
def jobProgress (s : JobState) : Nat := progressOf s.completed s.total

lemma jobAdvance_total (s : JobState) (e : JobEvent) :
    (jobAdvance s e).total = s.total := by
  unfold jobAdvance
  split
  · rfl
  · cases e <;> rfl

lemma jobAdvance_completed_le (s : JobState) (e : JobEvent)
    (h : s.completed ≤ s.total) : s.completed ≤ (jobAdvance s e).completed := by
  unfold jobAdvance
  split
  · exact le_refl _
  · cases e
    · simp only
      omega
    · exact le_refl _

lemma progressOf_mono {c₁ c₂ : Nat} (t : Nat) (h : c₁ ≤ c₂) :
    progressOf c₁ t ≤ progressOf c₂ t :=
  Nat.div_le_div_right (Nat.mul_le_mul_left 100 h)

lemma progressOf_le_100 {c t : Nat} (h : c ≤ t) : progressOf c t ≤ 100 := by
  unfold progressOf
  rcases Nat.eq_zero_or_pos t with ht | ht
  · subst ht
    simp
  · have h1 : 100 * c ≤ 100 * t := Nat.mul_le_mul_left 100 h
    have h2 : 100 * t / t = 100 := Nat.mul_div_cancel 100 ht
    calc 100 * c / t ≤ 100 * t / t := Nat.div_le_div_right h1
    _ = 100 := h2

lemma jobRun_total (s : JobState) (es : List JobEvent) :
    (jobRun s es).total = s.total := by
  induction es generalizing s with
  | nil => rfl
  | cons e es ih => rw [jobRun, ih, jobAdvance_total]

lemma jobAdvance_completed_le_total (s : JobState) (e : JobEvent)
    (h : s.completed ≤ s.total) : (jobAdvance s e).completed ≤ (jobAdvance s e).total := by
  unfold jobAdvance
  split
  · exact h
  · cases e
    · simp only
      omega
    · exact h

lemma jobRun_completed_le (s : JobState) (es : List JobEvent)
    (h : s.completed ≤ s.total) : s.completed ≤ (jobRun s es).completed := by
  induction es generalizing s with
  | nil => exact le_refl _
  | cons e es ih =>
      rw [jobRun]
      exact le_trans (jobAdvance_completed_le s e h)
        (ih _ (jobAdvance_completed_le_total s e h))

/-! ## Provider Router (modelled from the spec)
The Provider Router runs in the backend, which is not among the frontend
sources; its fallback round is modelled from the spec (section 4.2). -/

/-- A (provider, model) pair eligible for one translation attempt. -/
structure Candidate where
  provider : String
  model : String
deriving DecidableEq, Repr

/-- The typed outcome of one Translation Worker call (spec section 4.3). -/
inductive AttemptOutcome where
  | success (text : String)
  | quotaExceeded
  | invalidCredential
  | timeout
  | malformedResponse
  | unknown
deriving DecidableEq, Repr

def AttemptOutcome.isSuccess : AttemptOutcome → Bool
  | AttemptOutcome.success _ => true
  | _ => false

/-- Modelled from the spec: one fallback round of the Provider Router (the
backend code is not in the repository's files) — candidates are attempted
strictly in the given priority order and the first success ends the round.
`attempt` is the Translation Worker; the result is the list of candidates
actually called, in call order, together with the winner (if any). -/
def runRound (attempt : Candidate → AttemptOutcome) :
    List Candidate → List Candidate × Option Candidate
  | [] => ([], none)
  | c :: cs =>
      if (attempt c).isSuccess then ([c], some c)
      else
        let r := runRound attempt cs
        (c :: r.1, r.2)

/-- The candidates a round calls are an initial run of the priority list:
attempts happen strictly in order, with no skipping ahead and no reordering. -/
lemma runRound_called_in_order (attempt : Candidate → AttemptOutcome) :
    ∀ cs : List Candidate, ∃ rest : List Candidate,
      cs = (runRound attempt cs).1 ++ rest := by
  intro cs
  induction cs with
  | nil => exact ⟨[], rfl⟩
  | cons c cs ih =>
      rw [runRound]
      split
      · exact ⟨cs, rfl⟩
      · obtain ⟨rest, hrest⟩ := ih
        exact ⟨rest, by rw [List.cons_append, ← hrest]⟩

/-! ## The client submit path
`handleUrlSubmit` in the main component (`src/unnamed/part_000`), together
with the request shapes of `videoApi` in `src/frontend/src/services/api.ts`.
Network replies are passed in as oracle values (the resolved promises of
`videoApi.check` / `videoApi.process`); the outcome records, in order, every
request the handler issues. -/

/-- `VideoProcessResponse` from `api.ts`. -/
structure VideoProcessResponse where
  job_id : String
  status : String
  message : String
deriving DecidableEq, Repr

/-- `VideoCheckResponse` from `api.ts` (`exists` is spelled `exists_` since
`exists` is reserved in Lean). -/
structure VideoCheckResponse where
  exists_ : Bool
  translation_id : Option String
  video_id : Option String
deriving DecidableEq, Repr

/-- One HTTP request the client issues during the submit path. -/
inductive ApiRequest where
  | check (youtube_url source_language target_language : String)
  | process (youtube_url source_language target_language : String)
      (force_retranslate : Bool)
  | getSubtitles (video_id source_language target_language : String)
deriving DecidableEq, Repr

/-- What one run of `handleUrlSubmit` leaves behind: the requests issued in
order, the `jobId` state cell, the alert shown (if any), and the `processing`
flag at return. -/
structure SubmitOutcome where
  requests : List ApiRequest
  jobId : Option String
  alert : Option String
  processing : Bool
deriving DecidableEq, Repr

/-- JavaScript truthiness of a nullable string: `null`/`undefined` and the
empty string are falsy. -/
def jsTruthy : Option String → Bool
  | none => false
  | some s => decide (s ≠ "")

/-- `handleUrlSubmit` from the main component. `geminiApiKey` is the nullable
key state cell; `extracted` is the result of `extractVideoId(url)`; `check`
and `processResp` are the successful replies of `videoApi.check` and
`videoApi.process`; `confirmRetranslate` is the user's `window.confirm`
answer. The guard `if (!geminiApiKey)` returns before any request; an invalid
URL likewise; otherwise the handler first asks `videoApi.check`, then either
re-translates (`force_retranslate: true`), loads the existing subtitles, or
starts a fresh `videoApi.process`, storing the returned `job_id`. -/
def handleUrlSubmit (geminiApiKey : Option String) (url : String)
    (extracted : Option String) (sourceLanguage targetLanguage : String)
    (check : VideoCheckResponse) (confirmRetranslate : Bool)
    (processResp : VideoProcessResponse) : SubmitOutcome :=
  if jsTruthy geminiApiKey = false then
    { requests := []
      jobId := none
      alert := some "Por favor, configure sua chave de API do Gemini primeiro."
      processing := false }
  else
    match extracted with
    | none =>
        { requests := []
          jobId := none
          alert := some "URL do YouTube inválida."
          processing := false }
    | some _ =>
        let checkReq := ApiRequest.check url sourceLanguage targetLanguage
        if check.exists_ = true ∧ jsTruthy check.video_id = true then
          if confirmRetranslate then
            { requests := [checkReq,
                ApiRequest.process url sourceLanguage targetLanguage true]
              jobId := some processResp.job_id
              alert := none
              processing := true }
          else
            { requests := [checkReq,
                ApiRequest.getSubtitles (check.video_id.getD "")
                  sourceLanguage targetLanguage]
              jobId := none
              alert := none
              processing := false }
        else
          { requests := [checkReq,
              ApiRequest.process url sourceLanguage targetLanguage false]
            jobId := some processResp.job_id
            alert := none
            processing := true }

/-! ## The submit endpoint (modelled from the spec)
The HTTP response codes of `POST submit-translation-job` are produced by the
backend, which is not among the frontend sources; they are modelled from the
spec (section 6). -/

/-- Modelled from the spec: what the submit endpoint consults — the configured
providers and the identities `(videoId, sourceLang, targetLang)` of in-flight
Jobs (the backend code is not in the repository's files). -/
structure BackendState where
  providers : List String
  inflight : List (String × String × String)
deriving DecidableEq, Repr

/-- Modelled from the spec: the response code of
`POST submit-translation-job(videoId, sourceLang, targetLang)` — `400` if no
provider is configured, `409` if an identical in-flight Job exists for the
same (video, langs) pair, `202 Accepted` on enqueue. -/
def submitTranslationJob (st : BackendState)
    (videoId sourceLang targetLang : String) : Nat :=
  if st.providers = [] then 400
  else if (videoId, sourceLang, targetLang) ∈ st.inflight then 409
  else 202

/-! ## The subtitle overlay
`src/frontend/src/components/VideoPlayer/SubtitleOverlay.tsx`: with no active
segments the component returns `null`; otherwise it renders one original line
and one translated line, each the `join(' ')` of the segments' texts in the
given order. -/

/-- `TranslationSegment` from `api.ts`. Times are kept abstract as integers;
the claims are about the text fields. -/
structure TranslationSegment where
  start : Int
  duration : Int
  original : String
  translated : String
deriving DecidableEq, Repr

/-- JavaScript `Array.prototype.join(' ')`. -/
def joinSpace : List String → String
  | [] => ""
  | [x] => x
  | x :: xs => x ++ " " ++ joinSpace xs

/-- The rendered pair of subtitle lines of `SubtitleOverlay`: `none` stands
for the component returning `null` on an empty segment list, otherwise
`(originalText, translatedText)` as computed by the source's two
`segments.map(...).join(' ')` expressions. -/
def SubtitleOverlay (segments : List TranslationSegment) :
    Option (String × String) :=
  if segments.length = 0 then none
  else
    some (joinSpace (segments.map (fun seg => seg.original)),
          joinSpace (segments.map (fun seg => seg.translated)))

/-- The spec's words, as a second definition for comparison: the
concatenation, in the given segment order, of each segment's text, one space
between consecutive segments. -/
def concatInOrder (f : TranslationSegment → String) :
    List TranslationSegment → String
  | [] => ""
  | [s] => f s
  | s :: rest => f s ++ " " ++ concatInOrder f rest

lemma joinSpace_map_eq_concatInOrder (f : TranslationSegment → String) :
    ∀ segs : List TranslationSegment,
      joinSpace (segs.map f) = concatInOrder f segs := by
  intro segs
  induction segs with
  | nil => rfl
  | cons s rest ih =>
      cases rest with
      | nil => rfl
      | cons t rest2 =>
          simp only [List.map, joinSpace, concatInOrder] at ih ⊢
          rw [ih]

/-! ## The usage-stats client
`usageApi.getStats` in `src/frontend/src/services/api.ts`: it builds the query
parameters (`days`, defaulting to 30, plus `service` only when the argument is
truthy) and returns the server's report unchanged. The HTTP GET is passed in
as an oracle from query parameters to the report. -/

/-- One per-model bucket of `UsageStatsResponse` in `api.ts`. -/
structure ModelUsage where
  model : String
  tokens : Nat
  input_tokens : Nat
  output_tokens : Nat
  requests : Nat
deriving DecidableEq, Repr

/-- One daily bucket of `UsageStatsResponse` in `api.ts`. -/
structure DailyUsage where
  date : String
  total_tokens : Nat
  requests : Nat
deriving DecidableEq, Repr

/-- `UsageStatsResponse` from `api.ts` (the aggregated TokenUsage report). -/
structure UsageStatsResponse where
  service : Option String
  total_tokens : Nat
  input_tokens : Nat
  output_tokens : Nat
  requests : Nat
  models : List ModelUsage
  daily_usage : List DailyUsage
  period_days : Nat
deriving DecidableEq, Repr

/-- The query parameters `usageApi.getStats` sends to `/api/usage/stats`. -/
structure UsageQueryParams where
  days : Nat
  service : Option String
deriving DecidableEq, Repr

/-- The parameter object built by `usageApi.getStats`: `const params = { days };
if (service) { params.service = service; }` — the `service` key is present
exactly when the argument is truthy (non-null and nonempty). -/
def getStatsParams (service : Option String) (days : Nat) : UsageQueryParams :=
  { days := days
    service := if jsTruthy service = true then service else none }

namespace usageApi

/-- `usageApi.getStats(service?, days = 30)`: an omitted `days` argument is the
TypeScript default 30 (`days = none` models the caller leaving it out); the
oracle `get` is the HTTP GET of `/api/usage/stats`, whose `response.data` is
returned unchanged. -/
def getStats (get : UsageQueryParams → UsageStatsResponse)
    (service : Option String) (days : Option Nat) : UsageStatsResponse :=
  get (getStatsParams service (days.getD 30))

end usageApi

/-! ## Theorems for the claims -/

/-- C1: once a `getJobStatus` poll observes status `completed` or `error`,
`useJobPolling` performs no further `getJobStatus` calls for that job — the
interval is cleared and `isPolling` becomes `false`. -/
theorem useJobPolling_stops_after_terminal (s : PollState)
    (st : JobStatusResponse) (rs : List (Except Unit JobStatusResponse))
    (h : st.status = JobStatus.completed ∨ st.status = JobStatus.error) :
    (pollStep s (Except.ok st)).isPolling = false ∧
    (pollStep s (Except.ok st)).intervalActive = false ∧
    pollCalls (pollStep s (Except.ok st)) rs = 0 := by
  rcases h with h | h <;>
    exact ⟨by simp [pollStep, h], by simp [pollStep, h],
      pollCalls_inactive _ (by simp [pollStep, h]) rs⟩

/-- Witness for C1 at a concrete completed response and two more ticks of
interval results. -/
theorem useJobPolling_stops_after_terminal_witness :
    (pollStep ⟨none, true, true⟩
        (Except.ok ⟨"job-1", JobStatus.completed, 100, none, some "vid-1", none, none⟩)).isPolling
      = false ∧
    (pollStep ⟨none, true, true⟩
        (Except.ok ⟨"job-1", JobStatus.completed, 100, none, some "vid-1", none, none⟩)).intervalActive
      = false ∧
    pollCalls
      (pollStep ⟨none, true, true⟩
        (Except.ok ⟨"job-1", JobStatus.completed, 100, none, some "vid-1", none, none⟩))
      [Except.error (), Except.ok ⟨"job-1", JobStatus.queued, 0, none, none, none, none⟩]
      = 0 :=
  useJobPolling_stops_after_terminal ⟨none, true, true⟩
    ⟨"job-1", JobStatus.completed, 100, none, some "vid-1", none, none⟩
    [Except.error (), Except.ok ⟨"job-1", JobStatus.queued, 0, none, none, none, none⟩]
    (Or.inl rfl)

/-- C2: the progress a `getStatus` poll reads is non-decreasing over a Job's
lifetime — any later observation of the same Job (after any sequence of
Job Manager events, including reaching a terminal state, which freezes the
Job) reports a progress at least as large. -/
theorem job_progress_monotone (s : JobState) (es : List JobEvent)
    (h : s.completed ≤ s.total) :
    jobProgress s ≤ jobProgress (jobRun s es) := by
  unfold jobProgress
  rw [jobRun_total s es]
  exact progressOf_mono s.total (jobRun_completed_le s es h)

/-- Witness for C2: a fresh three-segment job after two completed segments. -/
theorem job_progress_monotone_witness :
    jobProgress ⟨0, 3, JobStatus.queued⟩ ≤
      jobProgress (jobRun ⟨0, 3, JobStatus.queued⟩
        [JobEvent.segmentDone, JobEvent.segmentDone]) :=
  job_progress_monotone ⟨0, 3, JobStatus.queued⟩
    [JobEvent.segmentDone, JobEvent.segmentDone] (by decide)

/-- C3: candidates are attempted strictly in priority order and the first
success short-circuits the round — when the highest-priority candidate
succeeds, it is the only candidate called, and in general the called
candidates are an initial run of the priority-ordered list. -/
theorem router_first_success_short_circuits
    (attempt : Candidate → AttemptOutcome) (c : Candidate)
    (cs : List Candidate) (h : (attempt c).isSuccess = true) :
    runRound attempt (c :: cs) = ([c], some c) ∧
    ∀ ds : List Candidate, ∃ rest : List Candidate,
      ds = (runRound attempt ds).1 ++ rest := by
  exact ⟨by simp [runRound, h], runRound_called_in_order attempt⟩

/-- Witness for C3: two lower-priority providers behind a succeeding one; the
round calls only the first. -/
theorem router_first_success_short_circuits_witness :
    runRound (fun _ => AttemptOutcome.success "ok")
        [⟨"gemini", "flash"⟩, ⟨"openrouter", "m1"⟩, ⟨"groq", "m2"⟩] =
      ([⟨"gemini", "flash"⟩], some ⟨"gemini", "flash"⟩) ∧
    ∀ ds : List Candidate, ∃ rest : List Candidate,
      ds = (runRound (fun _ => AttemptOutcome.success "ok") ds).1 ++ rest :=
  router_first_success_short_circuits (fun _ => AttemptOutcome.success "ok")
    ⟨"gemini", "flash"⟩ [⟨"openrouter", "m1"⟩, ⟨"groq", "m2"⟩] rfl

/-- C4: the submit path validates that a configured provider (API key)
exists: with a falsy key it fails synchronously with the configure-your-key
alert, issues no request and creates no Job; with a key configured and a
fresh video it issues exactly the existence check and the enqueue request
and stores the returned `job_id` — it never waits for the translation. -/
theorem submit_requires_configured_provider (key : Option String)
    (url v srcLang tgtLang : String) (check : VideoCheckResponse)
    (confirm : Bool) (resp : VideoProcessResponse) :
    (jsTruthy key = false →
      handleUrlSubmit key url (some v) srcLang tgtLang check confirm resp =
        { requests := []
          jobId := none
          alert := some "Por favor, configure sua chave de API do Gemini primeiro."
          processing := false }) ∧
    (jsTruthy key = true → check.exists_ = false →
      (handleUrlSubmit key url (some v) srcLang tgtLang check confirm resp).jobId
          = some resp.job_id ∧
      (handleUrlSubmit key url (some v) srcLang tgtLang check confirm resp).requests
          = [ApiRequest.check url srcLang tgtLang,
             ApiRequest.process url srcLang tgtLang false]) := by
  constructor
  · intro hk
    simp [handleUrlSubmit, hk]
  · intro hk hex
    simp [handleUrlSubmit, hk, hex]

/-- Witness for C4: a missing key issues nothing; a configured key on a fresh
video stores the enqueued job id. -/
theorem submit_requires_configured_provider_witness :
    handleUrlSubmit none "u" (some "v") "en" "pt" ⟨false, none, none⟩ false
        ⟨"job-9", "queued", "ok"⟩ =
      { requests := []
        jobId := none
        alert := some "Por favor, configure sua chave de API do Gemini primeiro."
        processing := false } ∧
    (handleUrlSubmit (some "k") "u" (some "v") "en" "pt" ⟨false, none, none⟩
        false ⟨"job-9", "queued", "ok"⟩).jobId = some "job-9" :=
  ⟨(submit_requires_configured_provider none "u" "v" "en" "pt"
      ⟨false, none, none⟩ false ⟨"job-9", "queued", "ok"⟩).1 rfl,
   ((submit_requires_configured_provider (some "k") "u" "v" "en" "pt"
      ⟨false, none, none⟩ false ⟨"job-9", "queued", "ok"⟩).2 rfl rfl).1⟩

/-- C5: the submit endpoint answers 202 on enqueue, 409 for an identical
in-flight Job on the same (video, langs) pair, and 400 with no provider
configured; the client's submit path conforms — it runs the existence check
first and then enqueues, passing `force_retranslate` exactly when an existing
translation is found and the user confirms re-translation. -/
theorem submit_endpoint_contract (st : BackendState) (v s t : String) :
    (st.providers = [] → submitTranslationJob st v s t = 400) ∧
    (st.providers ≠ [] → (v, s, t) ∈ st.inflight →
      submitTranslationJob st v s t = 409) ∧
    (st.providers ≠ [] → (v, s, t) ∉ st.inflight →
      submitTranslationJob st v s t = 202) ∧
    (∀ (key : Option String) (url w srcLang tgtLang : String)
        (check : VideoCheckResponse) (confirm : Bool)
        (resp : VideoProcessResponse),
      jsTruthy key = true → check.exists_ = false →
      (handleUrlSubmit key url (some w) srcLang tgtLang check confirm resp).requests
        = [ApiRequest.check url srcLang tgtLang,
           ApiRequest.process url srcLang tgtLang false]) ∧
    (∀ (key : Option String) (url w srcLang tgtLang : String)
        (check : VideoCheckResponse) (resp : VideoProcessResponse),
      jsTruthy key = true → check.exists_ = true →
      jsTruthy check.video_id = true →
      (handleUrlSubmit key url (some w) srcLang tgtLang check true resp).requests
        = [ApiRequest.check url srcLang tgtLang,
           ApiRequest.process url srcLang tgtLang true]) := by
  refine ⟨?_, ?_, ?_, ?_, ?_⟩
  · intro hp
    simp [submitTranslationJob, hp]
  · intro hp hin
    simp [submitTranslationJob, hp, hin]
  · intro hp hout
    simp [submitTranslationJob, hp, hout]
  · intro key url w srcLang tgtLang check confirm resp hk hex
    simp [handleUrlSubmit, hk, hex]
  · intro key url w srcLang tgtLang check resp hk hex hvid
    simp [handleUrlSubmit, hk, hex, hvid]

/-- C6: a job-status response carries one of exactly the four statuses
`queued`, `processing`, `completed`, `error`, and a progress produced by the
Job Manager's formula lies in the closed interval [0, 100]. -/
theorem job_status_response_valid (r : JobStatusResponse) (c t : Nat)
    (h : c ≤ t) (hp : r.progress = progressOf c t) :
    (r.status = JobStatus.queued ∨ r.status = JobStatus.processing ∨
     r.status = JobStatus.completed ∨ r.status = JobStatus.error) ∧
    0 ≤ r.progress ∧ r.progress ≤ 100 := by
  refine ⟨?_, Nat.zero_le _, ?_⟩
  · cases hs : r.status <;> simp
  · rw [hp]
    exact progressOf_le_100 h

/-- Witness for C6: a processing response at one of three segments done. -/
theorem job_status_response_valid_witness :
    ((⟨"j", JobStatus.processing, progressOf 1 3, none, none, none, none⟩ :
        JobStatusResponse).status = JobStatus.queued ∨
     (⟨"j", JobStatus.processing, progressOf 1 3, none, none, none, none⟩ :
        JobStatusResponse).status = JobStatus.processing ∨
     (⟨"j", JobStatus.processing, progressOf 1 3, none, none, none, none⟩ :
        JobStatusResponse).status = JobStatus.completed ∨
     (⟨"j", JobStatus.processing, progressOf 1 3, none, none, none, none⟩ :
        JobStatusResponse).status = JobStatus.error) ∧
    0 ≤ (⟨"j", JobStatus.processing, progressOf 1 3, none, none, none, none⟩ :
        JobStatusResponse).progress ∧
    (⟨"j", JobStatus.processing, progressOf 1 3, none, none, none, none⟩ :
        JobStatusResponse).progress ≤ 100 :=
  job_status_response_valid
    ⟨"j", JobStatus.processing, progressOf 1 3, none, none, none, none⟩
    1 3 (by decide) rfl

/-- C7: for a non-empty segment list the overlay's original and translated
lines are exactly the concatenation, in the given segment order, of each
segment's original and translated text — no segment is reordered or
dropped. -/
theorem subtitle_overlay_concat_in_order (segs : List TranslationSegment)
    (h : segs ≠ []) :
    SubtitleOverlay segs =
      some (concatInOrder (fun seg => seg.original) segs,
            concatInOrder (fun seg => seg.translated) segs) := by
  unfold SubtitleOverlay
  rw [if_neg (by simp [List.length_eq_zero, h]),
    joinSpace_map_eq_concatInOrder, joinSpace_map_eq_concatInOrder]

/-- Witness for C7 on a concrete two-segment list. -/
theorem subtitle_overlay_concat_in_order_witness :
    SubtitleOverlay [⟨0, 2, "hello", "olá"⟩, ⟨2, 3, "world", "mundo"⟩] =
      some (concatInOrder (fun seg => seg.original)
              [⟨0, 2, "hello", "olá"⟩, ⟨2, 3, "world", "mundo"⟩],
            concatInOrder (fun seg => seg.translated)
              [⟨0, 2, "hello", "olá"⟩, ⟨2, 3, "world", "mundo"⟩]) :=
  subtitle_overlay_concat_in_order
    [⟨0, 2, "hello", "olá"⟩, ⟨2, 3, "world", "mundo"⟩] (by simp)

/-- C8 counterexample: the empty string is a given provider argument, yet
`usageApi.getStats` omits the `service` query parameter for it (JavaScript
truthiness), so the parameter is not included "exactly when a provider is
given". The oracle echoes the query parameters it received. -/
theorem usage_getStats_empty_provider_counterexample :
    (some "" : Option String) ≠ none ∧
    (usageApi.getStats
        (fun p => ⟨p.service, p.days, 0, 0, 0, [], [], p.days⟩)
        (some "") none).service = none := by
  constructor
  · simp
  · rfl

/-- C8 (amended): `usageApi.getStats` queries with `days` defaulting to 30,
includes the `service` parameter exactly when a truthy (non-null, nonempty)
provider is given — an empty-string provider is omitted like an absent one —
and returns the server's aggregated report unchanged. -/
theorem usage_getStats_params (get : UsageQueryParams → UsageStatsResponse)
    (service : Option String) (days : Option Nat) :
    usageApi.getStats get service days
        = get (getStatsParams service (days.getD 30)) ∧
    (getStatsParams service (days.getD 30)).days = days.getD 30 ∧
    usageApi.getStats get service none = get (getStatsParams service 30) ∧
    (∀ sv : String, service = some sv → sv ≠ "" →
      (getStatsParams service (days.getD 30)).service = some sv) ∧
    ((getStatsParams service (days.getD 30)).service = none ↔
      service = none ∨ service = some "") := by
  refine ⟨rfl, rfl, rfl, ?_, ?_⟩
  · intro sv hsv hne
    subst hsv
    simp [getStatsParams, jsTruthy, hne]
  · cases service with
    | none => simp [getStatsParams, jsTruthy]
    | some sv =>
        by_cases hsv : sv = "" <;> simp [getStatsParams, jsTruthy, hsv]

/-- C9: if a single `getJobStatus` call fails, `useJobPolling` permanently
stops polling for that job — the interval is cleared, `isPolling` becomes
`false`, no further call is made, and the last successfully observed status
remains the final observation. -/
theorem useJobPolling_failure_stops_polling (s : PollState)
    (rs : List (Except Unit JobStatusResponse)) :
    (pollStep s (Except.error ())).isPolling = false ∧
    (pollStep s (Except.error ())).intervalActive = false ∧
    pollCalls (pollStep s (Except.error ())) rs = 0 ∧
    (pollRun (pollStep s (Except.error ())) rs).jobStatus = s.jobStatus := by
  refine ⟨rfl, rfl, pollCalls_inactive _ rfl rs, ?_⟩
  rw [pollRun_inactive _ rfl rs]
  rfl

/-- C10: the subtitle overlay renders nothing for the empty segment list, and
the rendering path producing the joined lines is taken exactly on non-empty
lists. -/
theorem subtitle_overlay_empty_renders_nothing :
    SubtitleOverlay [] = none ∧
    ∀ segs : List TranslationSegment, segs ≠ [] →
      ∃ lines : String × String, SubtitleOverlay segs = some lines := by
  constructor
  · rfl
  · intro segs h
    refine ⟨(joinSpace (segs.map fun seg => seg.original),
             joinSpace (segs.map fun seg => seg.translated)), ?_⟩
    unfold SubtitleOverlay
    rw [if_neg (by simp [List.length_eq_zero, h])]

end VideoTrans
